import Mathlib

/-!
Shallow embedding of the Stylii frontend state management and generation flow.

Sources:
- src/frontend/lib/store.ts        (Zustand store: state, setters, cache, reset)
- src/unnamed/part_000             (ResultsPage.handleStyleSelect generation flow)
- src/frontend/app/not-found.tsx   (SelectedDesignPage.generateCompositeImage effect)
- src/frontend/components/multi-step-design-form.tsx (BudgetStep slider/input)
- src/frontend/lib/client.ts       (DesignResult / Product interfaces)

JavaScript numbers are modelled as integers (ℤ): every numeric value the
claims concern (budgets, timestamps, delays, the cache TTL) is an integer.
The one fractional mock value, `DesignResult.latency`, is kept as ℚ and never
computed with.  `Date.now()` timestamps are passed explicitly as a `now`
parameter wherever the source calls `Date.now()`.
-/

namespace Stylii

/-- Product, from src/frontend/lib/client.ts. -/
structure Product where
  id : String
  title : String
  vendor : String
  price : ℤ
  image : String
  url : String
deriving Repr, DecidableEq

/-- DesignResult, from src/frontend/lib/client.ts.  `createdAt` is an epoch
timestamp in ms. -/
structure DesignResult where
  id : String
  renderUrl : String
  products : List Product
  style : String
  budget : ℤ
  createdAt : ℤ
  latency : ℚ
deriving Repr, DecidableEq

/-- A backend-recommended product (typed `any` in the store).  The frontend
reads `thumbnail` (part_000 line 142, not-found.tsx line 103; `none` models a
missing or non-string field) and the display fields below
(not-found.tsx lines 283-320). -/
structure RecProduct where
  thumbnail : Option String
  title : String
  price : Option String
  rating : Option ℤ
  reviews : Option ℤ
  link : Option String
deriving Repr, DecidableEq

/-- One entry of `productsCache` (store.ts line 24). -/
structure CacheEntry where
  products : List RecProduct
  queries : List String
  timestamp : ℤ
deriving Repr, DecidableEq

/-- The Zustand store state (store.ts lines 4-24).  `File` objects are
modelled by the base64 string their `fileToBase64` conversion yields; the
`Record<string, ...>` cache is an association list with JS-object update
semantics (replace in place, else append). -/
structure StoreState where
  images : List String
  budget : ℤ
  style : String
  notes : String
  selectedProducts : List String
  isGenerating : Bool
  error : Option String
  results : List DesignResult
  currentResultId : Option String
  recommendedProducts : List RecProduct
  amazonSearchQueries : List String
  compositeImageUrl : Option String
  productsCache : List (String × CacheEntry)
deriving Repr, DecidableEq

/-- The initial state (store.ts lines 45-58). -/
def initialState : StoreState where
  images := []
  budget := 5000
  style := ""
  notes := ""
  selectedProducts := []
  isGenerating := false
  error := none
  results := []
  currentResultId := none
  recommendedProducts := []
  amazonSearchQueries := []
  compositeImageUrl := none
  productsCache := []

/-- JS object spread update `{...m, [k]: v}`: replace the value at `k` in
place when present, else append the new key. -/
def recordSet (m : List (String × CacheEntry)) (k : String) (v : CacheEntry) :
    List (String × CacheEntry) :=
  if m.any (fun p => p.1 = k) then
    m.map (fun p => if p.1 = k then (k, v) else p)
  else
    m ++ [(k, v)]

/-- store.ts line 61. -/
def setImages (s : StoreState) (images : List String) : StoreState :=
  { s with images := images }

/-- store.ts line 62: stores the given value with no validation. -/
def setBudget (s : StoreState) (budget : ℤ) : StoreState :=
  { s with budget := budget }

/-- store.ts line 63. -/
def setStyle (s : StoreState) (style : String) : StoreState :=
  { s with style := style }

/-- store.ts line 64. -/
def setNotes (s : StoreState) (notes : String) : StoreState :=
  { s with notes := notes }

/-- store.ts line 65. -/
def setSelectedProducts (s : StoreState) (l : List String) : StoreState :=
  { s with selectedProducts := l }

/-- store.ts line 66. -/
def setIsGenerating (s : StoreState) (b : Bool) : StoreState :=
  { s with isGenerating := b }

/-- store.ts line 67. -/
def setError (s : StoreState) (e : Option String) : StoreState :=
  { s with error := e }

/-- store.ts lines 68-72: prepend the new result and point
`currentResultId` at it. -/
def addResult (s : StoreState) (r : DesignResult) : StoreState :=
  { s with results := r :: s.results, currentResultId := some r.id }

/-- store.ts line 73: stores the given id with no membership check. -/
def setCurrentResult (s : StoreState) (id : String) : StoreState :=
  { s with currentResultId := some id }

/-- store.ts line 74. -/
def setRecommendedProducts (s : StoreState) (l : List RecProduct) : StoreState :=
  { s with recommendedProducts := l }

/-- store.ts line 75. -/
def setAmazonSearchQueries (s : StoreState) (l : List String) : StoreState :=
  { s with amazonSearchQueries := l }

/-- store.ts line 76. -/
def setCompositeImageUrl (s : StoreState) (u : Option String) : StoreState :=
  { s with compositeImageUrl := u }

/-- store.ts lines 77-87: write `{products, queries, timestamp: Date.now()}`
under key `style`; `now` stands for `Date.now()`. -/
def setProductsCache (s : StoreState) (style : String)
    (products : List RecProduct) (queries : List String) (now : ℤ) : StoreState :=
  { s with productsCache := recordSet s.productsCache style ⟨products, queries, now⟩ }

/-- store.ts lines 88-99: look the style up; if present and
`now - timestamp > 3600000` does not hold, return the stored pair, else null. -/
def getProductsFromCache (s : StoreState) (style : String) (now : ℤ) :
    Option (List RecProduct × List String) :=
  match s.productsCache.lookup style with
  | some cached =>
      if now - cached.timestamp > 3600000 then none
      else some (cached.products, cached.queries)
  | none => none

/-- store.ts lines 100-113: reset the listed fields to their defaults.
`results` and `currentResultId` are not in the reset object and keep their
values. -/
def reset (s : StoreState) : StoreState :=
  { s with
    images := []
    budget := 5000
    style := ""
    notes := ""
    selectedProducts := []
    isGenerating := false
    error := none
    recommendedProducts := []
    amazonSearchQueries := []
    compositeImageUrl := none
    productsCache := [] }

/-- Outcome of the Nano Banana room-visualization fetch, as the frontend
observes it: 2xx with a `generated_image` (modelled by the object URL the
bytes produce), 2xx without one, an HTTP error with status and body text, or
a thrown exception (network failure, bad json, `atob` failure, ...). -/
inductive NanoOutcome where
  | okImage (url : String)
  | okNoImage
  | httpError (status : Nat) (body : String)
  | exn
deriving Repr, DecidableEq

/-- Environment of one `handleStyleSelect` run: the observable outcome of the
two external calls.  `queryResult = some (products, queries)` models a 2xx
response from `/api/gemini/generate-design-queries` whose
`recommended_products` and `amazon_search_queries` fields default to `[]`
when absent (part_000 lines 187-188); `none` models a non-ok status or a
throw, either of which lands in the outer catch. -/
structure GenEnv where
  queryResult : Option (List RecProduct × List String)
  nano : NanoOutcome
deriving Repr, DecidableEq

/-- part_000 lines 141-143: collect the `thumbnail` fields that are nonempty
strings. -/
def productThumbUrls (products : List RecProduct) : List String :=
  products.filterMap (fun p =>
    match p.thumbnail with
    | some u => if u.length > 0 then some u else none
    | none => none)

/-- part_000 lines 135-138 and the truthiness test on line 149: the room
base64 is `imageBase64s[0]` and counts as present when it is a nonempty
string. -/
def roomPresent (images : List String) : Bool :=
  match images.head? with
  | some r => r.length > 0
  | none => false

/-- part_000 line 149: the Nano Banana fetch is issued iff a room base64 and
at least one product thumbnail exist. -/
def nanoAttempted (s : StoreState) (products : List RecProduct) : Bool :=
  roomPresent s.images && !(productThumbUrls products).isEmpty

/-- The `compositeImageUrl` after the Nano Banana step of part_000 lines
131-181: set to the object URL only when the fetch was issued and returned a
2xx body carrying `generated_image`; unchanged in every other case. -/
def nanoComposite (old : Option String) (attempted : Bool) (o : NanoOutcome) :
    Option String :=
  if attempted then
    match o with
    | NanoOutcome.okImage url => some url
    | _ => old
  else old

/-- Observable result of one `handleStyleSelect` invocation: the store
afterwards, how many times each external endpoint was called, whether the
page navigated to `/selected-design`, the `setTimeout` delay (ms) in front of
that navigation when one was used, and whether the call was rejected by the
busy guard. -/
structure GenOutcome where
  store : StoreState
  queryCalls : Nat
  nanoCalls : Nat
  navigated : Bool
  navDelayMs : Option Nat
  busy : Bool
deriving Repr, DecidableEq

/-- part_000 lines 68-211, `handleStyleSelect`.  `localGenerating` is the
component-local `isGenerating` `useState`; `now` stands for `Date.now()`
during the run.  Branches, in source order: the busy guard (70-73), the cache
hit (76-84), then the fetch; on query failure the outer catch navigates after
a 2000 ms `setTimeout` (204-206) and the `finally` clears `isGenerating`; on
query success the Nano Banana step runs only when a room base64 and at least
one product thumbnail exist (149), its failure or absence being non-fatal,
after which the results are stored, cached, and navigation happens. -/
def handleStyleSelect (s : StoreState) (localGenerating : Bool) (styleId : String)
    (now : ℤ) (env : GenEnv) : GenOutcome :=
  if localGenerating || s.isGenerating then
    { store := s, queryCalls := 0, nanoCalls := 0,
      navigated := false, navDelayMs := none, busy := true }
  else
    match getProductsFromCache s styleId now with
    | some (p, q) =>
        { store := setAmazonSearchQueries (setRecommendedProducts s p) q,
          queryCalls := 0, nanoCalls := 0,
          navigated := true, navDelayMs := none, busy := false }
    | none =>
        match env.queryResult with
        | none =>
            { store := setIsGenerating s false, queryCalls := 1, nanoCalls := 0,
              navigated := true, navDelayMs := some 2000, busy := false }
        | some (products, queries) =>
            let nanoAttempt := nanoAttempted s products
            let s1 :=
              if nanoAttempt then
                match env.nano with
                | NanoOutcome.okImage url => setCompositeImageUrl s (some url)
                | _ => s
              else s
            let s2 := setProductsCache
              (setAmazonSearchQueries (setRecommendedProducts s1 products) queries)
              styleId products queries now
            { store := setIsGenerating s2 false,
              queryCalls := 1, nanoCalls := if nanoAttempt then 1 else 0,
              navigated := true, navDelayMs := none, busy := false }

/-- Component state of SelectedDesignPage (not-found.tsx lines 61-67) that
the composite-image effect reads and writes.  `images` and
`recommendedProducts` come from the store; the three booleans are local
`useState` flags. -/
structure VizState where
  compositeImageUrl : Option String
  images : List String
  recommendedProducts : List RecProduct
  isGeneratingImage : Bool
  hasAttemptedGeneration : Bool
  rateLimitError : Bool
deriving Repr, DecidableEq

/-- Guard of the composite-image effect (not-found.tsx line 83). -/
def canStartGeneration (v : VizState) : Bool :=
  v.compositeImageUrl.isNone && !v.images.isEmpty && !v.recommendedProducts.isEmpty
    && !v.isGeneratingImage && !v.hasAttemptedGeneration && !v.rateLimitError

/-- Whether `needle` occurs at the start of `hay`, character by character. -/
def charsStartWith : List Char → List Char → Bool
  | [], _ => true
  | _ :: _, [] => false
  | a :: as, b :: bs => a == b && charsStartWith as bs

/-- Whether `needle` occurs contiguously anywhere in `hay`. -/
def charsContain (needle : List Char) : List Char → Bool
  | [] => needle.isEmpty
  | b :: bs => charsStartWith needle (b :: bs) || charsContain needle bs

/-- JS `hay.includes(needle)`: substring containment. -/
def strIncludes (hay needle : String) : Bool :=
  charsContain needle.data hay.data

/-- not-found.tsx line 133: the failure is treated as a rate limit exactly
when the status is 500 and the body text contains "429". -/
def isRateLimitSignature (status : Nat) (body : String) : Bool :=
  status == 500 && strIncludes body "429"

/-- not-found.tsx lines 81-150, the `generateCompositeImage` effect body.
Returns the state after the run together with whether the Nano Banana fetch
was issued.  When the guard fails, nothing happens.  Otherwise
`hasAttemptedGeneration` is set, the fetch is issued if some thumbnail
exists, a 2xx body with `generated_image` stores the object URL, a rate-limit
failure (status 500, body containing "429") sets `rateLimitError`, any other
failure or exception only logs, and `finally` clears `isGeneratingImage`. -/
def generateCompositeImage (v : VizState) (env : NanoOutcome) : VizState × Bool :=
  if canStartGeneration v then
    let v1 := { v with isGeneratingImage := false, hasAttemptedGeneration := true }
    let thumbs := productThumbUrls v.recommendedProducts
    if thumbs.isEmpty then (v1, false)
    else
      match env with
      | NanoOutcome.okImage url => ({ v1 with compositeImageUrl := some url }, true)
      | NanoOutcome.okNoImage => (v1, true)
      | NanoOutcome.httpError st body =>
          if isRateLimitSignature st body then ({ v1 with rateLimitError := true }, true)
          else (v1, true)
      | NanoOutcome.exn => (v1, true)
  else (v, false)

/-- The Try Again button (not-found.tsx lines 227-230). -/
def tryAgain (v : VizState) : VizState :=
  { v with rateLimitError := false, hasAttemptedGeneration := false }

/-- The style-change effect (not-found.tsx lines 74-78). -/
def styleChange (v : VizState) : VizState :=
  { v with hasAttemptedGeneration := false, rateLimitError := false,
           compositeImageUrl := none }

/-- One invocation of a store action (store.ts lines 61-113), with its
argument. -/
inductive Action where
  | setImages (l : List String)
  | setBudget (b : ℤ)
  | setStyle (v : String)
  | setNotes (v : String)
  | setSelectedProducts (l : List String)
  | setIsGenerating (b : Bool)
  | setError (e : Option String)
  | addResult (r : DesignResult)
  | setCurrentResult (id : String)
  | setRecommendedProducts (l : List RecProduct)
  | setAmazonSearchQueries (l : List String)
  | setCompositeImageUrl (u : Option String)
  | setProductsCache (style : String) (products : List RecProduct)
      (queries : List String) (now : ℤ)
  | reset
deriving Repr, DecidableEq

/-- Interpret one action on the store. -/
def applyAction (s : StoreState) : Action → StoreState
  | Action.setImages l => setImages s l
  | Action.setBudget b => setBudget s b
  | Action.setStyle v => setStyle s v
  | Action.setNotes v => setNotes s v
  | Action.setSelectedProducts l => setSelectedProducts s l
  | Action.setIsGenerating b => setIsGenerating s b
  | Action.setError e => setError s e
  | Action.addResult r => addResult s r
  | Action.setCurrentResult id => setCurrentResult s id
  | Action.setRecommendedProducts l => setRecommendedProducts s l
  | Action.setAmazonSearchQueries l => setAmazonSearchQueries s l
  | Action.setCompositeImageUrl u => setCompositeImageUrl s u
  | Action.setProductsCache st p q now => setProductsCache s st p q now
  | Action.reset => reset s

/-- States reachable from the initial state by action sequences whose every
step satisfies `ok`. -/
inductive ReachableW (ok : StoreState → Action → Prop) : StoreState → Prop where
  | init : ReachableW ok initialState
  | step {s : StoreState} {a : Action} (hok : ok s a) (hs : ReachableW ok s) :
      ReachableW ok (applyAction s a)

/-- States reachable by arbitrary calls of the store's actions. -/
def Reachable : StoreState → Prop := ReachableW (fun _ _ => True)

/-- The discipline the sole UI caller of `setCurrentResult` obeys
(design-form.tsx line 175: `setCurrentResult(result.id)` for a `result` of
`results`): the id passed is the id of some element of the current result
list.  Every other action is unrestricted. -/
def uiCurrentResultOk (s : StoreState) : Action → Prop
  | Action.setCurrentResult id => id ∈ s.results.map DesignResult.id
  | _ => True

/-- The discipline of slider-driven budget updates
(multi-step-design-form.tsx lines 182-189: `min={500} max={20000}`): every
`setBudget` argument lies in [500, 20000].  Every other action is
unrestricted. -/
def sliderBudgetOk : StoreState → Action → Prop := fun _ a =>
  match a with
  | Action.setBudget b => 500 ≤ b ∧ b ≤ 20000
  | _ => True

/-- The invariant claimed of `currentResultId`: null or the id of an element
of `results`. -/
def currentIdInv (s : StoreState) : Prop :=
  s.currentResultId = none ∨ ∃ r ∈ s.results, s.currentResultId = some r.id

/-- A sample backend product with a usable thumbnail. -/
def exProduct : RecProduct :=
  { thumbnail := some "https://m.media/lamp.jpg", title := "Ceramic Table Lamp",
    price := some "$199", rating := some 5, reviews := some 12,
    link := some "https://amazon.example/lamp" }

/-- A sample backend product list. -/
def exProducts : List RecProduct := [exProduct]

/-- A sample query list. -/
def exQueries : List String := ["modern ceramic table lamp"]

/-- A sample design result. -/
def exResult : DesignResult :=
  { id := "r1", renderUrl := "/render.png", products := [], style := "modern",
    budget := 5000, createdAt := 0, latency := 3 }

/-- A store state whose sole cache entry for "modern" was written at
timestamp 0. -/
def exCachedState : StoreState :=
  setProductsCache initialState "modern" exProducts exQueries 0

/-- A store state with a generation in flight. -/
def exBusyState : StoreState := setIsGenerating initialState true

/-- A store state with one uploaded room image, as the generation flow
expects. -/
def exFormState : StoreState := setImages initialState ["picture-base64"]

/-- An environment where the query-generation call fails. -/
def exFailEnv : GenEnv := { queryResult := none, nano := NanoOutcome.exn }

/-- An environment where the query call succeeds and the visualization call
fails with the rate-limit signature. -/
def exRateLimitEnv : GenEnv :=
  { queryResult := some (exProducts, exQueries),
    nano := NanoOutcome.httpError 500 "Error 429: RESOURCE_EXHAUSTED" }

/-- A SelectedDesignPage state ready to attempt generation. -/
def exViz : VizState :=
  { compositeImageUrl := none, images := ["picture-base64"],
    recommendedProducts := exProducts, isGeneratingImage := false,
    hasAttemptedGeneration := false, rateLimitError := false }

/-- `exViz` after a rate-limited attempt. -/
def exVizRateLimited : VizState :=
  (generateCompositeImage exViz (NanoOutcome.httpError 500 "Error 429")).1

theorem lookup_replace_of_any (k : String) (v : CacheEntry) :
    ∀ (m : List (String × CacheEntry)), m.any (fun p => p.1 = k) = true →
      (m.map (fun p => if p.1 = k then (k, v) else p)).lookup k = some v := by
  intro m
  induction m with
  | nil => intro h; simp at h
  | cons hd tl ih =>
    intro h
    by_cases hk : hd.1 = k
    · rw [List.map_cons, if_pos hk]
      simp [List.lookup]
    · have h' : tl.any (fun p => p.1 = k) = true := by
        simp only [List.any_cons, Bool.or_eq_true, decide_eq_true_eq] at h
        rcases h with h | h
        · exact absurd h hk
        · exact h
      have hbeq : (k == hd.1) = false := by
        simp [Ne.symm hk]
      rw [List.map_cons, if_neg hk]
      simp only [List.lookup, hbeq]
      exact ih h'

theorem lookup_append_singleton (k : String) (v : CacheEntry) :
    ∀ (m : List (String × CacheEntry)), m.any (fun p => p.1 = k) = false →
      (m ++ [(k, v)]).lookup k = some v := by
  intro m
  induction m with
  | nil => intro _; simp [List.lookup]
  | cons hd tl ih =>
    intro h
    simp only [List.any_cons, Bool.or_eq_false_iff, decide_eq_false_iff_not] at h
    have hbeq : (k == hd.1) = false := by
      simp [Ne.symm h.1]
    rw [List.cons_append]
    simp only [List.lookup, hbeq]
    exact ih (by simpa using h.2)

theorem lookup_recordSet_self (m : List (String × CacheEntry)) (k : String)
    (v : CacheEntry) : (recordSet m k v).lookup k = some v := by
  unfold recordSet
  by_cases h : m.any (fun p => p.1 = k) = true
  · rw [if_pos h]
    exact lookup_replace_of_any k v m h
  · rw [if_neg h]
    exact lookup_append_singleton k v m (Bool.eq_false_iff.mpr h)

theorem handleStyleSelect_cacheHit (s : StoreState) (styleId : String) (now : ℤ)
    (env : GenEnv) (p : List RecProduct) (q : List String)
    (hbusy : s.isGenerating = false)
    (hhit : getProductsFromCache s styleId now = some (p, q)) :
    handleStyleSelect s false styleId now env =
      { store := setAmazonSearchQueries (setRecommendedProducts s p) q,
        queryCalls := 0, nanoCalls := 0, navigated := true,
        navDelayMs := none, busy := false } := by
  simp [handleStyleSelect, hbusy, hhit]

theorem handleStyleSelect_queryFailure (s : StoreState) (styleId : String)
    (now : ℤ) (env : GenEnv) (hbusy : s.isGenerating = false)
    (hmiss : getProductsFromCache s styleId now = none)
    (hq : env.queryResult = none) :
    handleStyleSelect s false styleId now env =
      { store := setIsGenerating s false, queryCalls := 1, nanoCalls := 0,
        navigated := true, navDelayMs := some 2000, busy := false } := by
  simp [handleStyleSelect, hbusy, hmiss, hq]

theorem handleStyleSelect_querySuccess (s : StoreState) (styleId : String)
    (now : ℤ) (env : GenEnv) (products : List RecProduct) (queries : List String)
    (hbusy : s.isGenerating = false)
    (hmiss : getProductsFromCache s styleId now = none)
    (hq : env.queryResult = some (products, queries)) :
    handleStyleSelect s false styleId now env =
      { store := { s with
          recommendedProducts := products,
          amazonSearchQueries := queries,
          productsCache := recordSet s.productsCache styleId ⟨products, queries, now⟩,
          isGenerating := false,
          compositeImageUrl :=
            nanoComposite s.compositeImageUrl (nanoAttempted s products) env.nano },
        queryCalls := 1, nanoCalls := if nanoAttempted s products then 1 else 0,
        navigated := true, navDelayMs := none, busy := false } := by
  rcases hn : env.nano with url | _ | ⟨st, body⟩ | _
  all_goals cases hna : nanoAttempted s products
  all_goals
    simp [handleStyleSelect, nanoComposite, setRecommendedProducts,
      setAmazonSearchQueries, setProductsCache, setIsGenerating,
      setCompositeImageUrl, hbusy, hmiss, hq, hn, hna]

theorem getPFC_of_lookup (s : StoreState) (style : String) (now : ℤ)
    (e : CacheEntry) (h : s.productsCache.lookup style = some e) :
    getProductsFromCache s style now =
      if now - e.timestamp > 3600000 then none
      else some (e.products, e.queries) := by
  unfold getProductsFromCache
  rw [h]

theorem getPFC_of_lookup_none (s : StoreState) (style : String) (now : ℤ)
    (h : s.productsCache.lookup style = none) :
    getProductsFromCache s style now = none := by
  unfold getProductsFromCache
  rw [h]

/-- Claim C1 (amended): for every style, `getProductsFromCache` returns the
stored pair iff an entry exists and `now - timestamp` is at most
3_600_000 ms — the boundary included, since the code expires only on
`now - timestamp > 3600000`; otherwise it returns a miss even when an
expired entry is still physically stored.  An entry written at `t` is served
on a read at `t + 3599 s` and is a miss at `t + 3601 s`. -/
theorem getProductsFromCache_ttl_le :
    (∀ (s : StoreState) (style : String) (now : ℤ)
        (pr : List RecProduct × List String),
      getProductsFromCache s style now = some pr ↔
        ∃ e, s.productsCache.lookup style = some e ∧
          now - e.timestamp ≤ 3600000 ∧ pr = (e.products, e.queries)) ∧
    (∀ (s : StoreState) (style : String) (p : List RecProduct)
        (q : List String) (t : ℤ),
      getProductsFromCache (setProductsCache s style p q t) style
          (t + 3599 * 1000) = some (p, q) ∧
      getProductsFromCache (setProductsCache s style p q t) style
          (t + 3601 * 1000) = none) := by
  constructor
  · intro s style now pr
    cases h : s.productsCache.lookup style with
    | none =>
      rw [getPFC_of_lookup_none s style now h]
      simp [h]
    | some e =>
      rw [getPFC_of_lookup s style now e h]
      by_cases hexp : now - e.timestamp > 3600000
      · rw [if_pos hexp]
        constructor
        · intro hc; simp at hc
        · rintro ⟨e', he', hle, -⟩
          injection he' with he'
          subst he'
          exact absurd hle (not_le.mpr hexp)
      · rw [if_neg hexp]
        push_neg at hexp
        constructor
        · intro hc
          injection hc with hc
          exact ⟨e, rfl, hexp, hc.symm⟩
        · rintro ⟨e', he', -, hpr⟩
          injection he' with he'
          subst he'
          rw [hpr]
  · intro s style p q t
    have hl : (setProductsCache s style p q t).productsCache.lookup style
        = some ⟨p, q, t⟩ := by
      simp only [setProductsCache]
      exact lookup_recordSet_self s.productsCache style ⟨p, q, t⟩
    constructor
    · rw [getPFC_of_lookup _ _ _ _ hl]
      have hlt : ¬ (t + 3599 * 1000 - (⟨p, q, t⟩ : CacheEntry).timestamp > 3600000) := by
        show ¬ (t + 3599 * 1000 - t > 3600000)
        omega
      rw [if_neg hlt]
    · rw [getPFC_of_lookup _ _ _ _ hl]
      have hgt : t + 3601 * 1000 - (⟨p, q, t⟩ : CacheEntry).timestamp > 3600000 := by
        show t + 3601 * 1000 - t > 3600000
        omega
      rw [if_pos hgt]

/-- Claim C1 counterexample: an entry written at timestamp 0 and read at
exactly 3_600_000 ms is still served, although `now - timestamp` is not
strictly less than 3_600_000 — so "hit iff `now - timestamp < 3_600_000`"
is false at this input. -/
theorem getProductsFromCache_boundary_hit_cex :
    getProductsFromCache exCachedState "modern" 3600000
        = some (exProducts, exQueries) ∧
    ¬ ((3600000 : ℤ) - 0 < 3600000) :=
  ⟨rfl, by decide⟩

/-- Claim C3: a generation attempt invoked while `isGenerating` is true is
rejected as a no-op — the store is unchanged, no external call is started,
no navigation happens, only the busy signal is raised — so a single session
never has two concurrent query-generation calls in flight. -/
theorem busy_guard_noop (s : StoreState) (l : Bool) (styleId : String)
    (now : ℤ) (env : GenEnv) (h : s.isGenerating = true) :
    handleStyleSelect s l styleId now env =
      { store := s, queryCalls := 0, nanoCalls := 0, navigated := false,
        navDelayMs := none, busy := true } := by
  simp [handleStyleSelect, h]

/-- Witness for C3: the guard fires on a concrete busy state. -/
theorem busy_guard_noop_witness :
    exBusyState.isGenerating = true ∧
    handleStyleSelect exBusyState false "modern" 0 exFailEnv =
      { store := exBusyState, queryCalls := 0, nanoCalls := 0,
        navigated := false, navDelayMs := none, busy := true } :=
  ⟨rfl, busy_guard_noop exBusyState false "modern" 0 exFailEnv rfl⟩

/-- Claim C4 counterexample: a concrete run whose query-generation call
fails makes the external call, yet afterwards the store's `error` is still
`none` — the catch block only sets the local loading-step text and never
calls the store's `setError` — refuting "error in the store is non-empty". -/
theorem query_failure_error_unset_cex :
    (handleStyleSelect exFormState false "modern" 0 exFailEnv).queryCalls = 1 ∧
    (handleStyleSelect exFormState false "modern" 0 exFailEnv).store.error = none :=
  ⟨rfl, rfl⟩

/-- Claim C4 (amended): when the query-generation call fails,
`recommendedProducts` is unchanged, the store's `error` is also unchanged
(the failure message appears only in the component-local loading step, not in
the store), `isGenerating` ends false, and the user is still navigated after
a fixed 2000 ms delay. -/
theorem query_failure_outcome (s : StoreState) (styleId : String) (now : ℤ)
    (env : GenEnv) (hbusy : s.isGenerating = false)
    (hmiss : getProductsFromCache s styleId now = none)
    (hq : env.queryResult = none) :
    (handleStyleSelect s false styleId now env).store.recommendedProducts
        = s.recommendedProducts ∧
    (handleStyleSelect s false styleId now env).store.error = s.error ∧
    (handleStyleSelect s false styleId now env).store.isGenerating = false ∧
    (handleStyleSelect s false styleId now env).navigated = true ∧
    (handleStyleSelect s false styleId now env).navDelayMs = some 2000 := by
  rw [handleStyleSelect_queryFailure s styleId now env hbusy hmiss hq]
  simp [setIsGenerating]

/-- Witness for C4's amended theorem at a concrete failing run. -/
theorem query_failure_outcome_witness :
    exFormState.isGenerating = false ∧
    getProductsFromCache exFormState "modern" 0 = none ∧
    exFailEnv.queryResult = none ∧
    ((handleStyleSelect exFormState false "modern" 0 exFailEnv).store.recommendedProducts
        = exFormState.recommendedProducts ∧
      (handleStyleSelect exFormState false "modern" 0 exFailEnv).store.error
        = exFormState.error ∧
      (handleStyleSelect exFormState false "modern" 0 exFailEnv).store.isGenerating
        = false ∧
      (handleStyleSelect exFormState false "modern" 0 exFailEnv).navigated = true ∧
      (handleStyleSelect exFormState false "modern" 0 exFailEnv).navDelayMs
        = some 2000) :=
  ⟨rfl, rfl, rfl, query_failure_outcome exFormState "modern" 0 exFailEnv rfl rfl rfl⟩

/-- Claim C5: when the query-generation call succeeds, the returned products
and queries are written into the cache keyed by the selected style
(timestamped with the current time), stored as the current session result,
and `isGenerating` ends false — for every possible outcome of the
visualization call (success, HTTP failure, exception, or skip), since `env`
ranges over all environments with the given `queryResult`. -/
theorem query_success_caches_and_stores (s : StoreState) (styleId : String)
    (now : ℤ) (env : GenEnv) (products : List RecProduct) (queries : List String)
    (hbusy : s.isGenerating = false)
    (hmiss : getProductsFromCache s styleId now = none)
    (hq : env.queryResult = some (products, queries)) :
    (handleStyleSelect s false styleId now env).store.productsCache.lookup styleId
        = some ⟨products, queries, now⟩ ∧
    (handleStyleSelect s false styleId now env).store.recommendedProducts
        = products ∧
    (handleStyleSelect s false styleId now env).store.amazonSearchQueries
        = queries ∧
    (handleStyleSelect s false styleId now env).store.isGenerating = false ∧
    (handleStyleSelect s false styleId now env).navigated = true := by
  rw [handleStyleSelect_querySuccess s styleId now env products queries hbusy hmiss hq]
  exact ⟨lookup_recordSet_self s.productsCache styleId ⟨products, queries, now⟩,
    rfl, rfl, rfl, rfl⟩

/-- Witness for C5 at a concrete run whose visualization call fails with a
rate-limit error: the results are cached and stored regardless. -/
theorem query_success_caches_and_stores_witness :
    exFormState.isGenerating = false ∧
    getProductsFromCache exFormState "modern" 0 = none ∧
    exRateLimitEnv.queryResult = some (exProducts, exQueries) ∧
    ((handleStyleSelect exFormState false "modern" 0 exRateLimitEnv).store.productsCache.lookup "modern"
        = some ⟨exProducts, exQueries, 0⟩ ∧
      (handleStyleSelect exFormState false "modern" 0 exRateLimitEnv).store.recommendedProducts
        = exProducts ∧
      (handleStyleSelect exFormState false "modern" 0 exRateLimitEnv).store.amazonSearchQueries
        = exQueries ∧
      (handleStyleSelect exFormState false "modern" 0 exRateLimitEnv).store.isGenerating
        = false ∧
      (handleStyleSelect exFormState false "modern" 0 exRateLimitEnv).navigated = true) :=
  ⟨rfl, rfl, rfl,
    query_success_caches_and_stores exFormState "modern" 0 exRateLimitEnv
      exProducts exQueries rfl rfl rfl⟩

/-- Claim C2: invoking the generation flow twice in a row for the same style
with no cache clear in between, where the first invocation's query call
succeeds, results in exactly one query-generation call in total — the second
invocation hits the cache, adopts the cached products and queries as the
current result, makes no external calls, and navigates directly. -/
theorem generate_twice_single_query_call (s : StoreState) (styleId : String)
    (now1 now2 : ℤ) (env1 env2 : GenEnv) (p : List RecProduct) (q : List String)
    (hbusy : s.isGenerating = false)
    (hmiss : getProductsFromCache s styleId now1 = none)
    (hq : env1.queryResult = some (p, q))
    (hgap : now2 - now1 ≤ 3600000) :
    (handleStyleSelect s false styleId now1 env1).queryCalls = 1 ∧
    (handleStyleSelect (handleStyleSelect s false styleId now1 env1).store
        false styleId now2 env2).queryCalls = 0 ∧
    (handleStyleSelect (handleStyleSelect s false styleId now1 env1).store
        false styleId now2 env2).nanoCalls = 0 ∧
    (handleStyleSelect (handleStyleSelect s false styleId now1 env1).store
        false styleId now2 env2).store.recommendedProducts = p ∧
    (handleStyleSelect (handleStyleSelect s false styleId now1 env1).store
        false styleId now2 env2).store.amazonSearchQueries = q ∧
    (handleStyleSelect (handleStyleSelect s false styleId now1 env1).store
        false styleId now2 env2).navigated = true := by
  have h1 := handleStyleSelect_querySuccess s styleId now1 env1 p q hbusy hmiss hq
  have hlook : (handleStyleSelect s false styleId now1 env1).store.productsCache.lookup styleId
      = some ⟨p, q, now1⟩ := by
    rw [h1]
    exact lookup_recordSet_self s.productsCache styleId ⟨p, q, now1⟩
  have hfresh : ¬ (now2 - (⟨p, q, now1⟩ : CacheEntry).timestamp > 3600000) := by
    show ¬ (now2 - now1 > 3600000)
    omega
  have hhit : getProductsFromCache (handleStyleSelect s false styleId now1 env1).store
      styleId now2 = some (p, q) := by
    rw [getPFC_of_lookup _ _ _ _ hlook, if_neg hfresh]
  have hbusy2 : (handleStyleSelect s false styleId now1 env1).store.isGenerating
      = false := by
    rw [h1]
  have h2 := handleStyleSelect_cacheHit
    (handleStyleSelect s false styleId now1 env1).store styleId now2 env2 p q
    hbusy2 hhit
  refine ⟨by rw [h1], ?_, ?_, ?_, ?_, ?_⟩ <;> rw [h2] <;> rfl

/-- Witness for C2 at a concrete pair of back-to-back runs. -/
theorem generate_twice_single_query_call_witness :
    exFormState.isGenerating = false ∧
    getProductsFromCache exFormState "modern" 0 = none ∧
    exRateLimitEnv.queryResult = some (exProducts, exQueries) ∧
    (1000 : ℤ) - 0 ≤ 3600000 ∧
    ((handleStyleSelect exFormState false "modern" 0 exRateLimitEnv).queryCalls = 1 ∧
      (handleStyleSelect (handleStyleSelect exFormState false "modern" 0 exRateLimitEnv).store
          false "modern" 1000 exRateLimitEnv).queryCalls = 0 ∧
      (handleStyleSelect (handleStyleSelect exFormState false "modern" 0 exRateLimitEnv).store
          false "modern" 1000 exRateLimitEnv).nanoCalls = 0 ∧
      (handleStyleSelect (handleStyleSelect exFormState false "modern" 0 exRateLimitEnv).store
          false "modern" 1000 exRateLimitEnv).store.recommendedProducts = exProducts ∧
      (handleStyleSelect (handleStyleSelect exFormState false "modern" 0 exRateLimitEnv).store
          false "modern" 1000 exRateLimitEnv).store.amazonSearchQueries = exQueries ∧
      (handleStyleSelect (handleStyleSelect exFormState false "modern" 0 exRateLimitEnv).store
          false "modern" 1000 exRateLimitEnv).navigated = true) :=
  ⟨rfl, rfl, rfl, by decide,
    generate_twice_single_query_call exFormState "modern" 0 1000
      exRateLimitEnv exRateLimitEnv exProducts exQueries rfl rfl rfl (by decide)⟩

/-- Claim C6: if the visualization call fails with the rate-limit signature
(status 500 with a body containing the rate-limit indicator "429"),
`rateLimitError` becomes true; while `rateLimitError` is true the automatic
effect never starts an attempt (state unchanged, no fetch); and the Try
Again action clears both `rateLimitError` and `hasAttemptedGeneration`,
after which an attempt is possible again. -/
theorem rate_limit_flow :
    (∀ (v : VizState) (st : Nat) (body : String),
      canStartGeneration v = true →
      productThumbUrls v.recommendedProducts ≠ [] →
      isRateLimitSignature st body = true →
      (generateCompositeImage v (NanoOutcome.httpError st body)).1.rateLimitError
          = true ∧
      (generateCompositeImage v (NanoOutcome.httpError st body)).2 = true) ∧
    (∀ (v : VizState) (env : NanoOutcome), v.rateLimitError = true →
      generateCompositeImage v env = (v, false)) ∧
    (∀ v : VizState, (tryAgain v).rateLimitError = false ∧
      (tryAgain v).hasAttemptedGeneration = false) ∧
    (∀ v : VizState, v.rateLimitError = true → v.compositeImageUrl = none →
      v.images ≠ [] → v.recommendedProducts ≠ [] → v.isGeneratingImage = false →
      canStartGeneration (tryAgain v) = true) := by
  refine ⟨?_, ?_, ?_, ?_⟩
  · intro v st body hcan hthumbs hsig
    have hne : (productThumbUrls v.recommendedProducts).isEmpty = false := by
      cases hpt : productThumbUrls v.recommendedProducts with
      | nil => exact absurd hpt hthumbs
      | cons a l => rfl
    constructor <;> simp [generateCompositeImage, hcan, hne, hsig]
  · intro v env h
    have hcan : canStartGeneration v = false := by
      simp [canStartGeneration, h]
    simp [generateCompositeImage, hcan]
  · intro v
    exact ⟨rfl, rfl⟩
  · intro v hrl hc himg hprod hgen
    have h1 : v.images.isEmpty = false := by
      cases hi : v.images with
      | nil => exact absurd hi himg
      | cons a l => rfl
    have h2 : v.recommendedProducts.isEmpty = false := by
      cases hp : v.recommendedProducts with
      | nil => exact absurd hp hprod
      | cons a l => rfl
    simp [canStartGeneration, tryAgain, hc, h1, h2, hgen]

/-- Witness for C6 at concrete states: a rate-limited attempt sets the flag,
the next automatic attempt is a no-op, and Try Again re-enables
generation. -/
theorem rate_limit_flow_witness :
    canStartGeneration exViz = true ∧
    productThumbUrls exViz.recommendedProducts ≠ [] ∧
    isRateLimitSignature 500 "Error 429" = true ∧
    (generateCompositeImage exViz (NanoOutcome.httpError 500 "Error 429")).1.rateLimitError
        = true ∧
    exVizRateLimited.rateLimitError = true ∧
    generateCompositeImage exVizRateLimited NanoOutcome.okNoImage
        = (exVizRateLimited, false) ∧
    (tryAgain exVizRateLimited).rateLimitError = false ∧
    (tryAgain exVizRateLimited).hasAttemptedGeneration = false ∧
    canStartGeneration (tryAgain exVizRateLimited) = true :=
  ⟨rfl, by decide, rfl,
    (rate_limit_flow.1 exViz 500 "Error 429" rfl (by decide) rfl).1,
    rfl,
    rate_limit_flow.2.1 exVizRateLimited NanoOutcome.okNoImage rfl,
    (rate_limit_flow.2.2.1 exVizRateLimited).1,
    (rate_limit_flow.2.2.1 exVizRateLimited).2,
    rate_limit_flow.2.2.2 exVizRateLimited rfl rfl (by decide) (by decide) rfl⟩

/-- Claim C7: `reset()` restores every form and UI field to its initial
default — images empty, budget 5000, style empty, notes empty,
selectedProducts empty, isGenerating false, error null — and clears the
entire cache, so every subsequent cache read is a miss. -/
theorem reset_restores_defaults (s : StoreState) :
    (reset s).images = [] ∧ (reset s).budget = 5000 ∧ (reset s).style = "" ∧
    (reset s).notes = "" ∧ (reset s).selectedProducts = [] ∧
    (reset s).isGenerating = false ∧ (reset s).error = none ∧
    (reset s).productsCache = [] ∧
    ∀ (style : String) (now : ℤ), getProductsFromCache (reset s) style now = none := by
  refine ⟨rfl, rfl, rfl, rfl, rfl, rfl, rfl, rfl, ?_⟩
  intro style now
  exact getPFC_of_lookup_none (reset s) style now rfl

/-- Claim C10: `reset()` leaves the results history and `currentResultId`
untouched while restoring every other top-level field to its default. -/
theorem reset_preserves_results (s : StoreState) :
    (reset s).results = s.results ∧
    (reset s).currentResultId = s.currentResultId ∧
    (reset s).images = [] ∧ (reset s).budget = 5000 ∧ (reset s).style = "" ∧
    (reset s).notes = "" ∧ (reset s).selectedProducts = [] ∧
    (reset s).isGenerating = false ∧ (reset s).error = none ∧
    (reset s).recommendedProducts = [] ∧ (reset s).amazonSearchQueries = [] ∧
    (reset s).compositeImageUrl = none ∧ (reset s).productsCache = [] :=
  ⟨rfl, rfl, rfl, rfl, rfl, rfl, rfl, rfl, rfl, rfl, rfl, rfl, rfl⟩

/-- Claim C8 counterexample: `setCurrentResult` stores its argument with no
membership check, so one store action from the initial state reaches a state
whose `currentResultId` is the id of no element of the (empty) results
list. -/
theorem setCurrentResult_orphan_cex :
    Reachable (applyAction initialState (Action.setCurrentResult "orphan")) ∧
    (applyAction initialState (Action.setCurrentResult "orphan")).currentResultId
        = some "orphan" ∧
    (applyAction initialState (Action.setCurrentResult "orphan")).results = [] ∧
    ¬ currentIdInv (applyAction initialState (Action.setCurrentResult "orphan")) := by
  refine ⟨ReachableW.step trivial ReachableW.init, rfl, rfl, ?_⟩
  intro h
  rcases h with h | ⟨r, hr, -⟩
  · simp [applyAction, setCurrentResult, initialState] at h
  · simp [applyAction, setCurrentResult, initialState] at hr

/-- Claim C8 (amended): provided `setCurrentResult` is only invoked with the
id of an element of the current results list — as its sole UI caller
(design-form.tsx line 175) does — every reachable state has
`currentResultId` null or equal to the id of some element of `results`; and
`addResult` unconditionally prepends the new result at the front (newest
first) while setting `currentResultId` to its id. -/
theorem currentResultId_inv_ui :
    (∀ s : StoreState, ReachableW uiCurrentResultOk s → currentIdInv s) ∧
    (∀ (s : StoreState) (r : DesignResult),
      (addResult s r).results = r :: s.results ∧
      (addResult s r).currentResultId = some r.id) := by
  constructor
  · intro s h
    induction h with
    | init => exact Or.inl rfl
    | step hok hs ih =>
      rename_i s' a
      cases a
      case addResult r => exact Or.inr ⟨r, List.mem_cons_self r _, rfl⟩
      case setCurrentResult id =>
        simp only [uiCurrentResultOk] at hok
        rcases List.mem_map.mp hok with ⟨r, hr, hid⟩
        refine Or.inr ⟨r, hr, ?_⟩
        rw [hid]
        exact rfl
      all_goals exact ih
  · intro s r
    exact ⟨rfl, rfl⟩

/-- Witness for C8's amended theorem: the invariant holds at a concrete
state reached by adding a result and selecting it. -/
theorem currentResultId_inv_ui_witness :
    currentIdInv (applyAction (applyAction initialState (Action.addResult exResult))
        (Action.setCurrentResult "r1")) ∧
    (addResult initialState exResult).results = [exResult] ∧
    (addResult initialState exResult).currentResultId = some "r1" :=
  ⟨currentResultId_inv_ui.1 _
      (ReachableW.step
        (show "r1" ∈ List.map DesignResult.id
            (applyAction initialState (Action.addResult exResult)).results by decide)
        (ReachableW.step trivial ReachableW.init)),
    (currentResultId_inv_ui.2 initialState exResult).1,
    (currentResultId_inv_ui.2 initialState exResult).2⟩

/-- Claim C9 counterexample: `setBudget` stores its argument with no
validation, so one store action from the initial state reaches a state with
budget 0 — outside [500, 20000] and not positive. -/
theorem setBudget_zero_reachable_cex :
    Reachable (applyAction initialState (Action.setBudget 0)) ∧
    (applyAction initialState (Action.setBudget 0)).budget = 0 :=
  ⟨ReachableW.step trivial ReachableW.init, rfl⟩

/-- Claim C9 (amended): provided every `setBudget` call passes a value in
[500, 20000] — as slider-driven updates do (`min={500} max={20000}`) — every
reachable state's budget lies in [500, 20000] and in particular is positive.
The unvalidated numeric input can pass any number (e.g. `Number("")` is 0),
so the invariant does not hold for arbitrary store operations. -/
theorem budget_range_inv_slider (s : StoreState)
    (h : ReachableW sliderBudgetOk s) :
    500 ≤ s.budget ∧ s.budget ≤ 20000 := by
  induction h with
  | init => exact ⟨by decide, by decide⟩
  | step hok hs ih =>
    rename_i s' a
    cases a
    case setBudget b => exact hok
    case reset =>
      exact ⟨show (500 : ℤ) ≤ 5000 by decide, show (5000 : ℤ) ≤ 20000 by decide⟩
    all_goals exact ih

/-- Witness for C9's amended theorem at a concrete slider update. -/
theorem budget_range_inv_slider_witness :
    500 ≤ (applyAction initialState (Action.setBudget 750)).budget ∧
    (applyAction initialState (Action.setBudget 750)).budget ≤ 20000 :=
  budget_range_inv_slider _
    (ReachableW.step (show (500 : ℤ) ≤ 750 ∧ (750 : ℤ) ≤ 20000 from
      ⟨by decide, by decide⟩) ReachableW.init)

end Stylii
